import Mathlib

set_option linter.unusedVariables false

/-!  Verification of the kamaji datastore Setup resource
(`internal/resources/datastore/datastore_setup.go`) and the kubeadm add-on
resource against their natural-language specification.

The Go code is embedded shallowly.  The external datastore connection
(`datastore.Connection`, an interface) is modelled as a state machine over
named schemas, users and privilege grants, together with a fault oracle that
says which primitive calls fail and with what backend error, and a trace of
the primitives that actually executed, in invocation order.  Every Go method
becomes a Lean function threading that connection state explicitly; the
`*TenantControlPlane` pointer argument is threaded wherever the Go method
receives it, so that (non-)mutation of the recorded status is visible in the
theorems. -/

/-- controllerutil.OperationResult, restricted to the values this code uses. -/
inductive OperationResult where
  | None
  | Created
  | Updated
  deriving DecidableEq, Repr

/-- One primitive operation against the external datastore connection,
recorded in the connection trace in invocation order. -/
inductive Op where
  | DBExists (schema : String)
  | CreateDB (schema : String)
  | DeleteDB (schema : String)
  | UserExists (user : String)
  | CreateUser (user password : String)
  | DeleteUser (user : String)
  | GrantPrivilegesExists (user schema : String)
  | GrantPrivileges (user schema : String)
  | RevokePrivileges (user schema : String)
  deriving DecidableEq, Repr

/-- Whether a primitive creates an artifact (as opposed to an existence check
or a removal). -/
def Op.isCreate : Op → Bool
  | .CreateDB _ => true
  | .CreateUser _ _ => true
  | .GrantPrivileges _ _ => true
  | _ => false

/-- Whether a primitive mutates the datastore at all (existence checks do
not). -/
def Op.isMutation : Op → Bool
  | .DBExists _ => false
  | .UserExists _ => false
  | .GrantPrivilegesExists _ _ => false
  | _ => true

/-- Pointwise update of a characteristic function over names. -/
def updS (f : String → Bool) (a : String) (v : Bool) : String → Bool :=
  fun x => if x = a then v else f x

/-- Pointwise update of a characteristic function over name pairs. -/
def upd2 (f : String → String → Bool) (a b : String) (v : Bool) :
    String → String → Bool :=
  fun x y => if x = a ∧ y = b then v else f x y

/-- The ground truth held by the external datastore: which schemas, users and
(user, schema) privilege grants currently exist. -/
structure DBState where
  dbs : String → Bool
  users : String → Bool
  grants : String → String → Bool

/-- A live datastore connection: backend state, a fault oracle giving the
error a primitive returns when it fails (`none` means the primitive
succeeds), and the trace of successfully executed primitives. -/
structure Conn where
  st : DBState
  fails : Op → Option String
  trace : List Op

/-- datastore.Connection.DBExists. -/
def Conn.DBExists (c : Conn) (schema : String) : (Except String Bool) × Conn :=
  match c.fails (.DBExists schema) with
  | some e => (.error e, c)
  | none => (.ok (c.st.dbs schema), { c with trace := c.trace ++ [.DBExists schema] })

/-- datastore.Connection.CreateDB. -/
def Conn.CreateDB (c : Conn) (schema : String) : (Except String Unit) × Conn :=
  match c.fails (.CreateDB schema) with
  | some e => (.error e, c)
  | none =>
    (.ok (), { st := { c.st with dbs := updS c.st.dbs schema true },
               fails := c.fails, trace := c.trace ++ [.CreateDB schema] })

/-- datastore.Connection.DeleteDB. -/
def Conn.DeleteDB (c : Conn) (schema : String) : (Except String Unit) × Conn :=
  match c.fails (.DeleteDB schema) with
  | some e => (.error e, c)
  | none =>
    (.ok (), { st := { c.st with dbs := updS c.st.dbs schema false },
               fails := c.fails, trace := c.trace ++ [.DeleteDB schema] })

/-- datastore.Connection.UserExists. -/
def Conn.UserExists (c : Conn) (user : String) : (Except String Bool) × Conn :=
  match c.fails (.UserExists user) with
  | some e => (.error e, c)
  | none => (.ok (c.st.users user), { c with trace := c.trace ++ [.UserExists user] })

/-- datastore.Connection.CreateUser. -/
def Conn.CreateUser (c : Conn) (user password : String) : (Except String Unit) × Conn :=
  match c.fails (.CreateUser user password) with
  | some e => (.error e, c)
  | none =>
    (.ok (), { st := { c.st with users := updS c.st.users user true },
               fails := c.fails, trace := c.trace ++ [.CreateUser user password] })

/-- datastore.Connection.DeleteUser. -/
def Conn.DeleteUser (c : Conn) (user : String) : (Except String Unit) × Conn :=
  match c.fails (.DeleteUser user) with
  | some e => (.error e, c)
  | none =>
    (.ok (), { st := { c.st with users := updS c.st.users user false },
               fails := c.fails, trace := c.trace ++ [.DeleteUser user] })

/-- datastore.Connection.GrantPrivilegesExists. -/
def Conn.GrantPrivilegesExists (c : Conn) (user schema : String) :
    (Except String Bool) × Conn :=
  match c.fails (.GrantPrivilegesExists user schema) with
  | some e => (.error e, c)
  | none =>
    (.ok (c.st.grants user schema),
     { c with trace := c.trace ++ [.GrantPrivilegesExists user schema] })

/-- datastore.Connection.GrantPrivileges. -/
def Conn.GrantPrivileges (c : Conn) (user schema : String) :
    (Except String Unit) × Conn :=
  match c.fails (.GrantPrivileges user schema) with
  | some e => (.error e, c)
  | none =>
    (.ok (), { st := { c.st with grants := upd2 c.st.grants user schema true },
               fails := c.fails, trace := c.trace ++ [.GrantPrivileges user schema] })

/-- datastore.Connection.RevokePrivileges. -/
def Conn.RevokePrivileges (c : Conn) (user schema : String) :
    (Except String Unit) × Conn :=
  match c.fails (.RevokePrivileges user schema) with
  | some e => (.error e, c)
  | none =>
    (.ok (), { st := { c.st with grants := upd2 c.st.grants user schema false },
               fails := c.fails, trace := c.trace ++ [.RevokePrivileges user schema] })

/-- Modelled from the spec: kamajiv1alpha1.AddonStatus (the api/v1alpha1 types
are not under the given sources).  Per the spec data model it records the
checksum of the configuration last successfully applied. -/
structure AddonStatus where
  checksum : String
  deriving DecidableEq, Repr

/-- Modelled from the spec: the per-add-on status block of the tenant. -/
structure AddonsStatus where
  coreDNS : AddonStatus
  kubeProxy : AddonStatus
  deriving DecidableEq, Repr

/-- Modelled from the spec: Status.Storage.Setup — the storage configuration
as of the last successful provisioning.  metav1.Time is modelled as a Nat. -/
structure SetupStatus where
  schema : String
  user : String
  lastUpdate : Nat
  checksum : String
  deriving DecidableEq, Repr

/-- Modelled from the spec: Status.Storage.Config — the fingerprint of the
desired connection/storage configuration. -/
structure ConfigStatus where
  checksum : String
  deriving DecidableEq, Repr

/-- Modelled from the spec: Status.Storage. -/
structure StorageStatus where
  driver : String
  config : ConfigStatus
  setup : SetupStatus
  deriving DecidableEq, Repr

/-- Modelled from the spec: the tenant status sub-fields this core touches. -/
structure TCPStatus where
  storage : StorageStatus
  addons : AddonsStatus
  deriving DecidableEq, Repr

/-- Modelled from the spec: desired add-on declarations; each field is a Go
pointer whose only observed property here is nil-ness. -/
structure AddonsSpec where
  coreDNS : Option Unit
  kubeProxy : Option Unit
  deriving DecidableEq, Repr

/-- Modelled from the spec: the desired-state side of the tenant. -/
structure TCPSpec where
  addons : AddonsSpec
  deriving DecidableEq, Repr

/-- Modelled from the spec: kamajiv1alpha1.TenantControlPlane, restricted to
the fields this core reads and writes. -/
structure TenantControlPlane where
  spec : TCPSpec
  status : TCPStatus
  deriving DecidableEq, Repr

/-- An error produced by the datastore Setup resource: errors.Wrap of a raw
backend error with a message identifying the failing artifact/operation. -/
structure DSErr where
  msg : String
  cause : String
  deriving DecidableEq, Repr

/-- SetupResource: transient credentials derived by Define from the datastore
configuration secret (DB_SCHEMA, DB_USER, DB_PASSWORD). -/
structure SetupResource where
  schema : String
  user : String
  password : String
  deriving DecidableEq, Repr

/-- The datastore Setup resource.  The Go struct also carries a cluster client
and the DataStore object; here the live connection is threaded explicitly
through each method and only the driver name, string(r.DataStore.Spec.Driver),
is kept. -/
structure Setup where
  resource : SetupResource
  driver : String
  deriving DecidableEq, Repr

/-- Setup.ShouldStatusBeUpdated. -/
def Setup.ShouldStatusBeUpdated (r : Setup) (tcp : TenantControlPlane) : Bool :=
  (tcp.status.storage.driver != r.driver) &&
    (tcp.status.storage.setup.checksum != tcp.status.storage.config.checksum)

/-- Setup.ShouldCleanup — constantly false. -/
def Setup.ShouldCleanup (r : Setup) (tcp : TenantControlPlane) : Bool :=
  false

/-- Setup.CleanUp — returns (false, nil) without touching the connection or
the tenant; both are threaded to make that visible. -/
def Setup.CleanUp (r : Setup) (c : Conn) (tcp : TenantControlPlane) :
    (Bool × Option DSErr) × Conn × TenantControlPlane :=
  ((false, none), c, tcp)

/-- Setup.GetName. -/
def Setup.GetName (r : Setup) : String :=
  "datastore-setup"

/-- Setup.createDB: check whether the schema exists, create it if absent. -/
def Setup.createDB (r : Setup) (c : Conn) : (Except DSErr OperationResult) × Conn :=
  match Conn.DBExists c r.resource.schema with
  | (.error e, c1) => (.error ⟨"unable to check if datastore exists", e⟩, c1)
  | (.ok ex, c1) =>
    if ex then (.ok .None, c1)
    else
      match Conn.CreateDB c1 r.resource.schema with
      | (.error e, c2) => (.error ⟨"unable to create the datastore", e⟩, c2)
      | (.ok _, c2) => (.ok .Created, c2)

/-- Setup.deleteDB: check whether the schema exists, delete it if present. -/
def Setup.deleteDB (r : Setup) (c : Conn) : (Except DSErr Unit) × Conn :=
  match Conn.DBExists c r.resource.schema with
  | (.error e, c1) => (.error ⟨"unable to check if datastore exists", e⟩, c1)
  | (.ok ex, c1) =>
    if ex then
      match Conn.DeleteDB c1 r.resource.schema with
      | (.error e, c2) => (.error ⟨"unable to delete the datastore", e⟩, c2)
      | (.ok _, c2) => (.ok (), c2)
    else (.ok (), c1)

/-- Setup.createUser: check whether the user exists, create it if absent. -/
def Setup.createUser (r : Setup) (c : Conn) : (Except DSErr OperationResult) × Conn :=
  match Conn.UserExists c r.resource.user with
  | (.error e, c1) => (.error ⟨"unable to check if user exists", e⟩, c1)
  | (.ok ex, c1) =>
    if ex then (.ok .None, c1)
    else
      match Conn.CreateUser c1 r.resource.user r.resource.password with
      | (.error e, c2) => (.error ⟨"unable to create the user", e⟩, c2)
      | (.ok _, c2) => (.ok .Created, c2)

/-- Setup.deleteUser: check whether the user exists, delete it if present. -/
def Setup.deleteUser (r : Setup) (c : Conn) : (Except DSErr Unit) × Conn :=
  match Conn.UserExists c r.resource.user with
  | (.error e, c1) => (.error ⟨"unable to check if user exists", e⟩, c1)
  | (.ok ex, c1) =>
    if ex then
      match Conn.DeleteUser c1 r.resource.user with
      | (.error e, c2) => (.error ⟨"unable to remove the user", e⟩, c2)
      | (.ok _, c2) => (.ok (), c2)
    else (.ok (), c1)

/-- Setup.createGrantPrivileges: check whether the privilege grant exists,
grant it if absent. -/
def Setup.createGrantPrivileges (r : Setup) (c : Conn) :
    (Except DSErr OperationResult) × Conn :=
  match Conn.GrantPrivilegesExists c r.resource.user r.resource.schema with
  | (.error e, c1) => (.error ⟨"unable to check if privileges exist", e⟩, c1)
  | (.ok ex, c1) =>
    if ex then (.ok .None, c1)
    else
      match Conn.GrantPrivileges c1 r.resource.user r.resource.schema with
      | (.error e, c2) => (.error ⟨"unable to grant privileges", e⟩, c2)
      | (.ok _, c2) => (.ok .Created, c2)

/-- Setup.revokeGrantPrivileges: check whether the privilege grant exists,
revoke it if present. -/
def Setup.revokeGrantPrivileges (r : Setup) (c : Conn) : (Except DSErr Unit) × Conn :=
  match Conn.GrantPrivilegesExists c r.resource.user r.resource.schema with
  | (.error e, c1) => (.error ⟨"unable to check if privileges exist", e⟩, c1)
  | (.ok ex, c1) =>
    if ex then
      match Conn.RevokePrivileges c1 r.resource.user r.resource.schema with
      | (.error e, c2) => (.error ⟨"unable to revoke privileges", e⟩, c2)
      | (.ok _, c2) => (.ok (), c2)
    else (.ok (), c1)

/-- Setup.Delete: revoke the privilege grant, delete the schema, delete the
user, aborting on the first error.  The tenant pointer is passed through and
never written. -/
def Setup.Delete (r : Setup) (c : Conn) (tcp : TenantControlPlane) :
    (Except DSErr Unit) × Conn × TenantControlPlane :=
  match Setup.revokeGrantPrivileges r c with
  | (.error e, c1) => (.error e, c1, tcp)
  | (.ok _, c1) =>
    match Setup.deleteDB r c1 with
    | (.error e, c2) => (.error e, c2, tcp)
    | (.ok _, c2) =>
      match Setup.deleteUser r c2 with
      | (.error e, c3) => (.error e, c3, tcp)
      | (.ok _, c3) => (.ok (), c3, tcp)

/-- Modelled from the spec: the helper `utils.UpdateOperationResult` lives in
`internal/resources/utils`, which is not among the given sources.  The spec
states that the aggregate result of a reconciliation is the strongest outcome
observed across the steps, with precedence Created over Updated over NoOp. -/
def UpdateOperationResult (current incoming : OperationResult) : OperationResult :=
  match current, incoming with
  | .Created, _ => .Created
  | _, .Created => .Created
  | .Updated, _ => .Updated
  | _, .Updated => .Updated
  | .None, .None => .None

/-- Setup.CreateOrUpdate.  If a setup checksum is recorded and differs from
the desired configuration checksum, perform a full Delete and report Updated;
otherwise create schema, user and privilege grant in order, folding the step
results with UpdateOperationResult and aborting on the first error.  The
tenant pointer is passed through and never written. -/
def Setup.CreateOrUpdate (r : Setup) (c : Conn) (tcp : TenantControlPlane) :
    (Except DSErr OperationResult) × Conn × TenantControlPlane :=
  if tcp.status.storage.setup.checksum ≠ "" ∧
      tcp.status.storage.setup.checksum ≠ tcp.status.storage.config.checksum then
    match Setup.Delete r c tcp with
    | (.error e, c1, t1) => (.error e, c1, t1)
    | (.ok _, c1, t1) => (.ok .Updated, c1, t1)
  else
    match Setup.createDB r c with
    | (.error e, c1) => (.error e, c1, tcp)
    | (.ok op1, c1) =>
      match Setup.createUser r c1 with
      | (.error e, c2) => (.error e, c2, tcp)
      | (.ok op2, c2) =>
        match Setup.createGrantPrivileges r c2 with
        | (.error e, c3) => (.error e, c3, tcp)
        | (.ok op3, c3) =>
          (.ok (UpdateOperationResult
                  (UpdateOperationResult (UpdateOperationResult .None op1) op2) op3),
           c3, tcp)

/-- Setup.UpdateTenantControlPlaneStatus: record schema, user, the current
time, and the desired configuration checksum into Status.Storage.Setup.  The
ambient clock metav1.Now() is passed as `now`.  The Go method always returns a
nil error. -/
def Setup.UpdateTenantControlPlaneStatus (r : Setup) (now : Nat)
    (tcp : TenantControlPlane) : (Except DSErr Unit) × TenantControlPlane :=
  (.ok (),
   { tcp with
      status.storage.setup :=
        { schema := r.resource.schema
          user := r.resource.user
          lastUpdate := now
          checksum := tcp.status.storage.config.checksum } })

/-- A Go error as observed by the add-on resource: a Kubernetes NotFound
status error is distinguished from every other error by k8serrors.IsNotFound. -/
inductive GoErr where
  | notFound (msg : String)
  | generic (msg : String)
  deriving DecidableEq, Repr

/-- k8serrors.IsNotFound. -/
def IsNotFound : GoErr → Bool
  | .notFound _ => true
  | .generic _ => false

/-- KubeadmAddon is an int enum in Go; values outside the two declared
constants are representable (the unknown-discriminant cases). -/
abbrev KubeadmAddon := Nat

/-- The AddonCoreDNS constant (iota value 0). -/
def AddonCoreDNS : KubeadmAddon := 0

/-- The AddonKubeProxy constant (iota value 1). -/
def AddonKubeProxy : KubeadmAddon := 1

/-- KubeadmAddon.String as seen through fmt verbs.  For a value outside the
two declared constants the Go method indexes the length-2 array out of range
and panics.  When String() is invoked through a fmt verb — as in the error
messages of getSpec, GetStatus and getRemoveAddonFunction — fmt recovers that
panic and renders a placeholder string, which is what this function returns
for the unknown case.  A direct call of String(), as in the logger
construction opening CleanUp and UpdateTenantControlPlaneStatus, propagates
the panic instead: that path is modelled by KubeadmAddon.stringPanics and the
whole-method definitions CleanUpMethod and
UpdateTenantControlPlaneStatusMethod. -/
def KubeadmAddon.toString (d : KubeadmAddon) : String :=
  if d = AddonCoreDNS then "PhaseAddonCoreDNS"
  else if d = AddonKubeProxy then "PhaseAddonKubeProxy"
  else "%!s(PANIC=String method: runtime error: index out of range)"

/-- Whether a direct (non-fmt) call of KubeadmAddon.String() panics: the Go
method indexes the length-2 array literal with the discriminant value, so any
discriminant other than the two declared constants is out of range. -/
def KubeadmAddon.stringPanics (d : KubeadmAddon) : Bool :=
  !(d == AddonCoreDNS || d == AddonKubeProxy)

/-- Outcome of a Go method call that may panic instead of returning: either
the runtime panic message, or the method's return value. -/
inductive GoOutcome (α : Type) where
  | panicked (msg : String)
  | value (a : α)
  deriving Repr

/-- The remover function values the discriminant switch can select. -/
inductive RemoverFn where
  | RemoveCoreDNSAddon
  | RemoveKubeProxy
  deriving DecidableEq, Repr

/-- Which addon status field a GetStatus call points at: the Go method
returns a pointer into the tenant status, modelled as a field reference. -/
inductive StatusRef where
  | coreDNS
  | kubeProxy
  deriving DecidableEq, Repr

/-- Dereference a status pointer for reading. -/
def TenantControlPlane.readAddonStatus (tcp : TenantControlPlane) :
    StatusRef → AddonStatus
  | .coreDNS => tcp.status.addons.coreDNS
  | .kubeProxy => tcp.status.addons.kubeProxy

/-- Modelled from the spec: AddonStatus.SetChecksum (the api/v1alpha1 types
are not among the given sources); writing through the status pointer stores
the just-applied fingerprint into that addon's Checksum field. -/
def TenantControlPlane.writeAddonChecksum (tcp : TenantControlPlane)
    (ref : StatusRef) (ck : String) : TenantControlPlane :=
  match ref with
  | .coreDNS => { tcp with status.addons.coreDNS.checksum := ck }
  | .kubeProxy => { tcp with status.addons.kubeProxy.checksum := ck }

/-- KubeadmAddonResource.  The Go struct also carries a cluster client, which
is part of the cleanup environment here. -/
structure KubeadmAddonResource where
  name : String
  kubeadmAddon : KubeadmAddon
  kubeadmConfigChecksum : String
  deriving DecidableEq, Repr

/-- KubeadmAddonResource.GetStatus: select the status field for the
discriminant, or an error for an unknown discriminant. -/
def KubeadmAddonResource.GetStatus (r : KubeadmAddonResource)
    (tcp : TenantControlPlane) : Except GoErr StatusRef :=
  if r.kubeadmAddon = AddonCoreDNS then .ok .coreDNS
  else if r.kubeadmAddon = AddonKubeProxy then .ok .kubeProxy
  else .error (.generic (KubeadmAddon.toString r.kubeadmAddon ++ " has no addon status"))

/-- KubeadmAddonResource.isStatusEqual.  The Go type assertion of the status
interface to *AddonStatus always succeeds for the two known references, so it
is not a separate failure point in the model. -/
def KubeadmAddonResource.isStatusEqual (r : KubeadmAddonResource)
    (tcp : TenantControlPlane) : Bool :=
  match KubeadmAddonResource.GetStatus r tcp with
  | .error _ => false
  | .ok ref =>
    (TenantControlPlane.readAddonStatus tcp ref).checksum == r.kubeadmConfigChecksum

/-- KubeadmAddonResource.ShouldStatusBeUpdated. -/
def KubeadmAddonResource.ShouldStatusBeUpdated (r : KubeadmAddonResource)
    (tcp : TenantControlPlane) : Bool :=
  !(KubeadmAddonResource.isStatusEqual r tcp)

/-- KubeadmAddonResource.getSpec: whether the desired spec for the addon is
absent (the Go nil check on the spec pointer), or an error for an unknown
discriminant. -/
def KubeadmAddonResource.getSpec (r : KubeadmAddonResource)
    (tcp : TenantControlPlane) : Except GoErr Bool :=
  if r.kubeadmAddon = AddonCoreDNS then .ok tcp.spec.addons.coreDNS.isNone
  else if r.kubeadmAddon = AddonKubeProxy then .ok tcp.spec.addons.kubeProxy.isNone
  else .error (.generic (KubeadmAddon.toString r.kubeadmAddon ++ " has no spec"))

/-- KubeadmAddonResource.ShouldCleanup: the getSpec answer, with any getSpec
error swallowed into false. -/
def KubeadmAddonResource.ShouldCleanup (r : KubeadmAddonResource)
    (tcp : TenantControlPlane) : Bool :=
  match KubeadmAddonResource.getSpec r tcp with
  | .error _ => false
  | .ok ok => ok

/-- KubeadmAddonResource.getRemoveAddonFunction. -/
def KubeadmAddonResource.getRemoveAddonFunction (r : KubeadmAddonResource) :
    Except GoErr RemoverFn :=
  if r.kubeadmAddon = AddonCoreDNS then .ok .RemoveCoreDNSAddon
  else if r.kubeadmAddon = AddonKubeProxy then .ok .RemoveKubeProxy
  else .error (.generic ("no available functionality for removing addon " ++
    KubeadmAddon.toString r.kubeadmAddon))

/-- The external collaborators CleanUp talks to: the result of building a
client scoped to the tenant control plane, and the outcome of invoking a
selected remover function against that client. -/
structure AddonCleanupEnv where
  getTenantClientSet : Except GoErr Unit
  runRemover : RemoverFn → Option GoErr

/-- KubeadmAddonResource.CleanUp, the method body from the tenant-client
construction onward: build the tenant client, select the remover for the
discriminant, invoke it; a NotFound error from the remover is success with no
mutation, any other error is surfaced.  The Go method opens with a logger
construction that calls KubeadmAddon.String() directly and panics for an
unknown discriminant before this body runs; the whole method including that
call is CleanUpMethod. -/
def KubeadmAddonResource.CleanUp (r : KubeadmAddonResource)
    (env : AddonCleanupEnv) (tcp : TenantControlPlane) : Bool × Option GoErr :=
  match env.getTenantClientSet with
  | .error e => (false, some e)
  | .ok _ =>
    match KubeadmAddonResource.getRemoveAddonFunction r with
    | .error e => (false, some e)
    | .ok f =>
      match env.runRemover f with
      | some e => if IsNotFound e then (false, none) else (false, some e)
      | none => (true, none)

/-- KubeadmAddonResource.CleanUp as a whole method.  Its first statement
builds a logger with log.FromContext(ctx, "resource", r.GetName(), "addon",
r.KubeadmAddon.String()); that direct String() call panics for a discriminant
outside the two constants, before the tenant client is built or the remover
is looked up.  For the two known discriminants the method proceeds with the
body modelled by CleanUp. -/
def KubeadmAddonResource.CleanUpMethod (r : KubeadmAddonResource)
    (env : AddonCleanupEnv) (tcp : TenantControlPlane) :
    GoOutcome (Bool × Option GoErr) :=
  if KubeadmAddon.stringPanics r.kubeadmAddon then
    .panicked "runtime error: index out of range"
  else
    .value (KubeadmAddonResource.CleanUp r env tcp)

/-- KubeadmAddonResource.UpdateTenantControlPlaneStatus, the method body from
the GetStatus lookup onward: look up the status pointer for the discriminant
and store the supplied checksum through it; an unknown discriminant would
surface the GetStatus error and leave the tenant unchanged.  As with CleanUp,
the Go method opens with a logger construction that calls
KubeadmAddon.String() directly and panics for an unknown discriminant before
this body runs; the whole method is UpdateTenantControlPlaneStatusMethod. -/
def KubeadmAddonResource.UpdateTenantControlPlaneStatus
    (r : KubeadmAddonResource) (tcp : TenantControlPlane) :
    (Except GoErr Unit) × TenantControlPlane :=
  match KubeadmAddonResource.GetStatus r tcp with
  | .error e => (.error e, tcp)
  | .ok ref =>
    (.ok (), TenantControlPlane.writeAddonChecksum tcp ref r.kubeadmConfigChecksum)

/-- KubeadmAddonResource.UpdateTenantControlPlaneStatus as a whole method:
the opening logger construction panics for a discriminant outside the two
constants, before GetStatus is reached; for the two known discriminants the
method proceeds with the body modelled by UpdateTenantControlPlaneStatus. -/
def KubeadmAddonResource.UpdateTenantControlPlaneStatusMethod
    (r : KubeadmAddonResource) (tcp : TenantControlPlane) :
    GoOutcome ((Except GoErr Unit) × TenantControlPlane) :=
  if KubeadmAddon.stringPanics r.kubeadmAddon then
    .panicked "runtime error: index out of range"
  else
    .value (KubeadmAddonResource.UpdateTenantControlPlaneStatus r tcp)

/-- The shape of one artifact step's contribution to the connection trace: the
existence check, followed by the mutating call exactly when the step decides
to mutate. -/
def stepBlock (mutate : Bool) (check mutOp : Op) : List Op :=
  if mutate then [check, mutOp] else [check]

/-- A datastore with no schemas, users or grants. -/
def emptySt : DBState :=
  { dbs := fun _ => false, users := fun _ => false, grants := fun _ _ => false }

/-- A fault-free connection over the empty datastore with an empty trace. -/
def connW : Conn :=
  { st := emptySt, fails := fun _ => none, trace := [] }

/-- A concrete Setup resource instance used by the witnesses. -/
def rW : Setup :=
  { resource := { schema := "tenant_a", user := "u1", password := "pw" },
    driver := "PostgreSQL" }

/-- A tenant that has never been provisioned: empty recorded setup checksum,
non-empty desired configuration checksum. -/
def tcpClean : TenantControlPlane :=
  { spec := { addons := { coreDNS := some (), kubeProxy := some () } },
    status :=
      { storage :=
          { driver := "PostgreSQL",
            config := { checksum := "cfg1" },
            setup := { schema := "", user := "", lastUpdate := 0, checksum := "" } },
        addons := { coreDNS := { checksum := "" }, kubeProxy := { checksum := "" } } } }

/-- A drifted tenant: recorded setup checksum cfg1, desired checksum cfg2. -/
def tcpDrift : TenantControlPlane :=
  { spec := { addons := { coreDNS := some (), kubeProxy := some () } },
    status :=
      { storage :=
          { driver := "PostgreSQL",
            config := { checksum := "cfg2" },
            setup := { schema := "tenant_a", user := "u1", lastUpdate := 1,
                       checksum := "cfg1" } },
        addons := { coreDNS := { checksum := "" }, kubeProxy := { checksum := "" } } } }

/-- The connection left behind by a teardown over the empty datastore: state
unchanged, trace extended by the three existence checks only. -/
def connDrifted : Conn :=
  { st := emptySt, fails := fun _ => none,
    trace := [.GrantPrivilegesExists "u1" "tenant_a", .DBExists "tenant_a",
              .UserExists "u1"] }

/-- The connection left behind by a full provisioning run over the empty
datastore: all three artifacts present, trace showing check-then-create for
each artifact in order. -/
def connProvisioned : Conn :=
  { st := { dbs := updS emptySt.dbs "tenant_a" true,
            users := updS emptySt.users "u1" true,
            grants := upd2 emptySt.grants "u1" "tenant_a" true },
    fails := fun _ => none,
    trace := [.DBExists "tenant_a", .CreateDB "tenant_a", .UserExists "u1",
              .CreateUser "u1" "pw", .GrantPrivilegesExists "u1" "tenant_a",
              .GrantPrivileges "u1" "tenant_a"] }

/-- A CoreDNS add-on resource instance. -/
def rCDx : KubeadmAddonResource :=
  { name := "addon-coredns", kubeadmAddon := AddonCoreDNS,
    kubeadmConfigChecksum := "cfg1" }

/-- An add-on resource whose discriminant is neither declared constant. -/
def r2x : KubeadmAddonResource :=
  { name := "addon-unknown", kubeadmAddon := 2, kubeadmConfigChecksum := "cfg1" }

/-- A tenant whose desired spec no longer declares the CoreDNS add-on and
whose status does not record it as present (empty checksum). -/
def tcpC7 : TenantControlPlane :=
  { spec := { addons := { coreDNS := none, kubeProxy := some () } },
    status :=
      { storage :=
          { driver := "PostgreSQL",
            config := { checksum := "cfg1" },
            setup := { schema := "", user := "", lastUpdate := 0, checksum := "" } },
        addons := { coreDNS := { checksum := "" }, kubeProxy := { checksum := "" } } } }

/-- A cleanup environment whose client is available and whose removers report
NotFound. -/
def envNF : AddonCleanupEnv :=
  { getTenantClientSet := .ok (),
    runRemover := fun _ => some (.notFound "deployments.apps not found") }

/-- Setup.Delete never writes the tenant pointer: the tenant returned is the
tenant passed in, in every branch. -/
theorem Setup.Delete_tcp (r : Setup) (c : Conn) (tcp : TenantControlPlane) :
    (Setup.Delete r c tcp).2.2 = tcp := by
  unfold Setup.Delete
  repeat first | rfl | split

/-- Setup.CreateOrUpdate never writes the tenant pointer. -/
theorem Setup.CreateOrUpdate_tcp (r : Setup) (c : Conn) (tcp : TenantControlPlane) :
    (Setup.CreateOrUpdate r c tcp).2.2 = tcp := by
  have ht := Setup.Delete_tcp r c tcp
  unfold Setup.CreateOrUpdate
  split
  · split <;> simp_all
  · repeat first | rfl | split

/-- Closed form of the creation path of Setup.CreateOrUpdate under a
fault-free connection: each artifact is checked and created exactly when
absent, in the order schema, user, privilege grant, and the result is Created
precisely when some artifact was absent. -/
theorem Setup.createOrUpdate_noFault (r : Setup) (c : Conn) (tcp : TenantControlPlane)
    (hc : c.fails = fun _ => none)
    (hnd : tcp.status.storage.setup.checksum = "" ∨
           tcp.status.storage.setup.checksum = tcp.status.storage.config.checksum) :
    Setup.CreateOrUpdate r c tcp =
      (.ok (if c.st.dbs r.resource.schema && c.st.users r.resource.user &&
              c.st.grants r.resource.user r.resource.schema then .None else .Created),
       { st := { dbs := if c.st.dbs r.resource.schema then c.st.dbs
                        else updS c.st.dbs r.resource.schema true,
                 users := if c.st.users r.resource.user then c.st.users
                          else updS c.st.users r.resource.user true,
                 grants := if c.st.grants r.resource.user r.resource.schema then c.st.grants
                           else upd2 c.st.grants r.resource.user r.resource.schema true },
         fails := c.fails,
         trace := c.trace ++
           stepBlock (!c.st.dbs r.resource.schema)
             (.DBExists r.resource.schema) (.CreateDB r.resource.schema) ++
           stepBlock (!c.st.users r.resource.user)
             (.UserExists r.resource.user) (.CreateUser r.resource.user r.resource.password) ++
           stepBlock (!c.st.grants r.resource.user r.resource.schema)
             (.GrantPrivilegesExists r.resource.user r.resource.schema)
             (.GrantPrivileges r.resource.user r.resource.schema) },
       tcp) := by
  have hcond : ¬ (tcp.status.storage.setup.checksum ≠ "" ∧
      tcp.status.storage.setup.checksum ≠ tcp.status.storage.config.checksum) := by
    rcases hnd with h | h
    · exact fun hh => hh.1 h
    · exact fun hh => hh.2 h
  rw [Setup.CreateOrUpdate, if_neg hcond]
  simp only [Setup.createDB, Setup.createUser, Setup.createGrantPrivileges,
    Conn.DBExists, Conn.UserExists, Conn.GrantPrivilegesExists,
    Conn.CreateDB, Conn.CreateUser, Conn.GrantPrivileges, hc]
  by_cases hd : c.st.dbs r.resource.schema = true <;>
    by_cases hu : c.st.users r.resource.user = true <;>
      by_cases hg : c.st.grants r.resource.user r.resource.schema = true <;>
        simp [hd, hu, hg, stepBlock, UpdateOperationResult]

/-- Closed form of Setup.Delete under a fault-free connection: revoke, delete
schema, delete user, in that order, each step mutating exactly when its
existence check reports the artifact present. -/
theorem Setup.delete_noFault (r : Setup) (c : Conn) (tcp : TenantControlPlane)
    (hc : c.fails = fun _ => none) :
    Setup.Delete r c tcp =
      (.ok (),
       { st := { dbs := if c.st.dbs r.resource.schema
                        then updS c.st.dbs r.resource.schema false else c.st.dbs,
                 users := if c.st.users r.resource.user
                          then updS c.st.users r.resource.user false else c.st.users,
                 grants := if c.st.grants r.resource.user r.resource.schema
                           then upd2 c.st.grants r.resource.user r.resource.schema false
                           else c.st.grants },
         fails := c.fails,
         trace := c.trace ++
           stepBlock (c.st.grants r.resource.user r.resource.schema)
             (.GrantPrivilegesExists r.resource.user r.resource.schema)
             (.RevokePrivileges r.resource.user r.resource.schema) ++
           stepBlock (c.st.dbs r.resource.schema)
             (.DBExists r.resource.schema) (.DeleteDB r.resource.schema) ++
           stepBlock (c.st.users r.resource.user)
             (.UserExists r.resource.user) (.DeleteUser r.resource.user) },
       tcp) := by
  rw [Setup.Delete]
  simp only [Setup.revokeGrantPrivileges, Setup.deleteDB, Setup.deleteUser,
    Conn.GrantPrivilegesExists, Conn.DBExists, Conn.UserExists,
    Conn.RevokePrivileges, Conn.DeleteDB, Conn.DeleteUser, hc]
  by_cases hg : c.st.grants r.resource.user r.resource.schema = true <;>
    by_cases hd : c.st.dbs r.resource.schema = true <;>
      by_cases hu : c.st.users r.resource.user = true <;>
        simp [hd, hu, hg, stepBlock]

/-- Behaviour of the schema creation step under any fault oracle: it never
touches users, grants or the fault oracle, only ever adds the schema, returns
one of Created, NoOp or a wrapped error naming the schema artifact, and
appends only check/create operations to the trace. -/
theorem Setup.createDB_spec (r : Setup) (c : Conn) :
    (Setup.createDB r c).2.st.users = c.st.users ∧
    (Setup.createDB r c).2.st.grants = c.st.grants ∧
    (Setup.createDB r c).2.fails = c.fails ∧
    (∀ x, c.st.dbs x = true → (Setup.createDB r c).2.st.dbs x = true) ∧
    ((Setup.createDB r c).1 = .ok .Created ∨ (Setup.createDB r c).1 = .ok .None ∨
      ∃ e, (Setup.createDB r c).1 = .error e) ∧
    (∀ e, (Setup.createDB r c).1 = .error e →
      e.msg = "unable to check if datastore exists" ∨
      e.msg = "unable to create the datastore") ∧
    (∃ ext, (Setup.createDB r c).2.trace = c.trace ++ ext ∧
      ∀ op ∈ ext, op.isCreate = true ∨ op.isMutation = false) := by
  unfold Setup.createDB Conn.DBExists Conn.CreateDB
  cases hf : c.fails (.DBExists r.resource.schema)
  · by_cases hd : c.st.dbs r.resource.schema = true
    · simp [hd, Op.isCreate, Op.isMutation]
    · cases hf2 : c.fails (.CreateDB r.resource.schema)
      · simp [hd, hf2, updS, Op.isCreate, Op.isMutation]
        exact fun x hx => Or.inr hx
      · simp [hd, hf2, Op.isCreate, Op.isMutation]
  · simp [Op.isCreate, Op.isMutation]

/-- Behaviour of the user creation step under any fault oracle. -/
theorem Setup.createUser_spec (r : Setup) (c : Conn) :
    (Setup.createUser r c).2.st.dbs = c.st.dbs ∧
    (Setup.createUser r c).2.st.grants = c.st.grants ∧
    (Setup.createUser r c).2.fails = c.fails ∧
    (∀ x, c.st.users x = true → (Setup.createUser r c).2.st.users x = true) ∧
    ((Setup.createUser r c).1 = .ok .Created ∨ (Setup.createUser r c).1 = .ok .None ∨
      ∃ e, (Setup.createUser r c).1 = .error e) ∧
    (∀ e, (Setup.createUser r c).1 = .error e →
      e.msg = "unable to check if user exists" ∨
      e.msg = "unable to create the user") ∧
    (∃ ext, (Setup.createUser r c).2.trace = c.trace ++ ext ∧
      ∀ op ∈ ext, op.isCreate = true ∨ op.isMutation = false) := by
  unfold Setup.createUser Conn.UserExists Conn.CreateUser
  cases hf : c.fails (.UserExists r.resource.user)
  · by_cases hd : c.st.users r.resource.user = true
    · simp [hd, Op.isCreate, Op.isMutation]
    · cases hf2 : c.fails (.CreateUser r.resource.user r.resource.password)
      · simp [hd, hf2, updS, Op.isCreate, Op.isMutation]
        exact fun x hx => Or.inr hx
      · simp [hd, hf2, Op.isCreate, Op.isMutation]
  · simp [Op.isCreate, Op.isMutation]

/-- Behaviour of the privilege grant creation step under any fault oracle. -/
theorem Setup.createGrantPrivileges_spec (r : Setup) (c : Conn) :
    (Setup.createGrantPrivileges r c).2.st.dbs = c.st.dbs ∧
    (Setup.createGrantPrivileges r c).2.st.users = c.st.users ∧
    (Setup.createGrantPrivileges r c).2.fails = c.fails ∧
    (∀ x y, c.st.grants x y = true →
      (Setup.createGrantPrivileges r c).2.st.grants x y = true) ∧
    ((Setup.createGrantPrivileges r c).1 = .ok .Created ∨
      (Setup.createGrantPrivileges r c).1 = .ok .None ∨
      ∃ e, (Setup.createGrantPrivileges r c).1 = .error e) ∧
    (∀ e, (Setup.createGrantPrivileges r c).1 = .error e →
      e.msg = "unable to check if privileges exist" ∨
      e.msg = "unable to grant privileges") ∧
    (∃ ext, (Setup.createGrantPrivileges r c).2.trace = c.trace ++ ext ∧
      ∀ op ∈ ext, op.isCreate = true ∨ op.isMutation = false) := by
  unfold Setup.createGrantPrivileges Conn.GrantPrivilegesExists Conn.GrantPrivileges
  cases hf : c.fails (.GrantPrivilegesExists r.resource.user r.resource.schema)
  · by_cases hd : c.st.grants r.resource.user r.resource.schema = true
    · simp [hd, Op.isCreate, Op.isMutation]
    · cases hf2 : c.fails (.GrantPrivileges r.resource.user r.resource.schema)
      · simp [hd, hf2, upd2, Op.isCreate, Op.isMutation]
        exact fun x y hx => Or.inr hx
      · simp [hd, hf2, Op.isCreate, Op.isMutation]
  · simp [Op.isCreate, Op.isMutation]

/-- Behaviour of the privilege revocation step under any fault oracle: it
never touches schemas or users, a success leaves the grant absent, and it
appends no creating operation to the trace. -/
theorem Setup.revokeGrantPrivileges_spec (r : Setup) (c : Conn) :
    (Setup.revokeGrantPrivileges r c).2.st.dbs = c.st.dbs ∧
    (Setup.revokeGrantPrivileges r c).2.st.users = c.st.users ∧
    (Setup.revokeGrantPrivileges r c).2.fails = c.fails ∧
    ((Setup.revokeGrantPrivileges r c).1 = .ok () →
      (Setup.revokeGrantPrivileges r c).2.st.grants
        r.resource.user r.resource.schema = false) ∧
    (∃ ext, (Setup.revokeGrantPrivileges r c).2.trace = c.trace ++ ext ∧
      ∀ op ∈ ext, op.isCreate = false) := by
  unfold Setup.revokeGrantPrivileges Conn.GrantPrivilegesExists Conn.RevokePrivileges
  cases hf : c.fails (.GrantPrivilegesExists r.resource.user r.resource.schema)
  · by_cases hd : c.st.grants r.resource.user r.resource.schema = true
    · cases hf2 : c.fails (.RevokePrivileges r.resource.user r.resource.schema)
      · simp [hd, hf2, upd2, Op.isCreate]
      · simp [hd, hf2, Op.isCreate]
    · simp [hd, Op.isCreate]
  · simp [Op.isCreate]

/-- Behaviour of the schema deletion step under any fault oracle. -/
theorem Setup.deleteDB_spec (r : Setup) (c : Conn) :
    (Setup.deleteDB r c).2.st.users = c.st.users ∧
    (Setup.deleteDB r c).2.st.grants = c.st.grants ∧
    (Setup.deleteDB r c).2.fails = c.fails ∧
    ((Setup.deleteDB r c).1 = .ok () →
      (Setup.deleteDB r c).2.st.dbs r.resource.schema = false) ∧
    (∃ ext, (Setup.deleteDB r c).2.trace = c.trace ++ ext ∧
      ∀ op ∈ ext, op.isCreate = false) := by
  unfold Setup.deleteDB Conn.DBExists Conn.DeleteDB
  cases hf : c.fails (.DBExists r.resource.schema)
  · by_cases hd : c.st.dbs r.resource.schema = true
    · cases hf2 : c.fails (.DeleteDB r.resource.schema)
      · simp [hd, hf2, updS, Op.isCreate]
      · simp [hd, hf2, Op.isCreate]
    · simp [hd, Op.isCreate]
  · simp [Op.isCreate]

/-- Behaviour of the user deletion step under any fault oracle. -/
theorem Setup.deleteUser_spec (r : Setup) (c : Conn) :
    (Setup.deleteUser r c).2.st.dbs = c.st.dbs ∧
    (Setup.deleteUser r c).2.st.grants = c.st.grants ∧
    (Setup.deleteUser r c).2.fails = c.fails ∧
    ((Setup.deleteUser r c).1 = .ok () →
      (Setup.deleteUser r c).2.st.users r.resource.user = false) ∧
    (∃ ext, (Setup.deleteUser r c).2.trace = c.trace ++ ext ∧
      ∀ op ∈ ext, op.isCreate = false) := by
  unfold Setup.deleteUser Conn.UserExists Conn.DeleteUser
  cases hf : c.fails (.UserExists r.resource.user)
  · by_cases hd : c.st.users r.resource.user = true
    · cases hf2 : c.fails (.DeleteUser r.resource.user)
      · simp [hd, hf2, updS, Op.isCreate]
      · simp [hd, hf2, Op.isCreate]
    · simp [hd, Op.isCreate]
  · simp [Op.isCreate]

/-- A successful Setup.Delete, under any fault oracle, leaves the tenant
unchanged, leaves all three artifacts absent, and appends no creating
operation to the trace. -/
theorem Setup.Delete_ok (r : Setup) (c : Conn) (tcp : TenantControlPlane)
    (c' : Conn) (tcp' : TenantControlPlane)
    (h : Setup.Delete r c tcp = (.ok (), c', tcp')) :
    tcp' = tcp ∧
    c'.st.dbs r.resource.schema = false ∧
    c'.st.users r.resource.user = false ∧
    c'.st.grants r.resource.user r.resource.schema = false ∧
    c'.fails = c.fails ∧
    (∃ ext, c'.trace = c.trace ++ ext ∧ ∀ op ∈ ext, op.isCreate = false) := by
  unfold Setup.Delete at h
  rcases h1 : Setup.revokeGrantPrivileges r c with ⟨res1, c1⟩
  rw [h1] at h
  obtain ⟨hrdb, hrus, hrf, hrg, ext1, hrt, hrne⟩ := Setup.revokeGrantPrivileges_spec r c
  rw [h1] at hrdb hrus hrf hrg hrt
  cases res1 with
  | error e => simp at h
  | ok u =>
    cases u
    dsimp only at h
    rcases h2 : Setup.deleteDB r c1 with ⟨res2, c2⟩
    rw [h2] at h
    obtain ⟨hdus, hdg, hdf, hddb, ext2, hdt, hdne⟩ := Setup.deleteDB_spec r c1
    rw [h2] at hdus hdg hdf hddb hdt
    cases res2 with
    | error e => simp at h
    | ok u =>
      cases u
      dsimp only at h
      rcases h3 : Setup.deleteUser r c2 with ⟨res3, c3⟩
      rw [h3] at h
      obtain ⟨hudb, hug, huf, huus, ext3, hut, hune⟩ := Setup.deleteUser_spec r c2
      rw [h3] at hudb hug huf huus hut
      cases res3 with
      | error e => simp at h
      | ok u =>
        cases u
        dsimp only at h
        simp only [Prod.mk.injEq] at h
        obtain ⟨-, hc3, htcp⟩ := h
        subst hc3
        subst htcp
        refine ⟨rfl, ?_, ?_, ?_, ?_, ?_⟩
        · rw [hudb, hddb (by simp)]
        · exact huus (by simp)
        · rw [hug, hdg, hrg (by simp)]
        · rw [huf, hdf, hrf]
        · refine ⟨ext1 ++ ext2 ++ ext3, ?_, ?_⟩
          · rw [hut, hdt, hrt]
            simp
          · intro op hop
            simp only [List.mem_append] at hop
            rcases hop with (hop | hop) | hop
            · exact hrne op hop
            · exact hdne op hop
            · exact hune op hop

/-- Claim C1: for a tenant whose recorded setup fingerprint is non-empty and
differs from the desired configuration fingerprint, a successful
Setup.CreateOrUpdate reports Updated, leaves the tenant status untouched,
fully removes the resource's artifacts (privilege grant, schema, user) while
issuing no creating operation at all — so teardown completes before any
artifact of the new configuration is provisioned — and the subsequent
Setup.UpdateTenantControlPlaneStatus records exactly the desired configuration
fingerprint. -/
theorem claim_C1_drift_repair (r : Setup) (c : Conn) (tcp : TenantControlPlane)
    (now : Nat) (res : OperationResult) (c' : Conn) (tcp' : TenantControlPlane)
    (hA : tcp.status.storage.setup.checksum ≠ "")
    (hB : tcp.status.storage.setup.checksum ≠ tcp.status.storage.config.checksum)
    (hcall : Setup.CreateOrUpdate r c tcp = (.ok res, c', tcp')) :
    res = .Updated ∧
    tcp' = tcp ∧
    c'.st.dbs r.resource.schema = false ∧
    c'.st.users r.resource.user = false ∧
    c'.st.grants r.resource.user r.resource.schema = false ∧
    (∃ ext, c'.trace = c.trace ++ ext ∧ ∀ op ∈ ext, op.isCreate = false) ∧
    ((Setup.UpdateTenantControlPlaneStatus r now tcp').2).status.storage.setup.checksum
      = tcp.status.storage.config.checksum := by
  rw [Setup.CreateOrUpdate, if_pos ⟨hA, hB⟩] at hcall
  rcases hD : Setup.Delete r c tcp with ⟨resD, cD, tD⟩
  rw [hD] at hcall
  cases resD with
  | error e => simp at hcall
  | ok u =>
    cases u
    dsimp only at hcall
    simp only [Prod.mk.injEq, Except.ok.injEq] at hcall
    obtain ⟨hres, hc, ht⟩ := hcall
    obtain ⟨htd, hdb, hus, hg, hf, ext, hext, hne⟩ := Setup.Delete_ok r c tcp cD tD hD
    subst hc
    subst ht
    subst htd
    refine ⟨hres.symm, rfl, hdb, hus, hg, ⟨ext, hext, hne⟩, ?_⟩
    simp [Setup.UpdateTenantControlPlaneStatus]

/-- Witness for claim C1: a drifted tenant over an empty fault-free datastore;
the call succeeds with Updated, removes nothing but checks all three
artifacts, and the status update records cfg2. -/
theorem claim_C1_witness :
    tcpDrift.status.storage.setup.checksum ≠ "" ∧
    tcpDrift.status.storage.setup.checksum ≠ tcpDrift.status.storage.config.checksum ∧
    Setup.CreateOrUpdate rW connW tcpDrift = (.ok .Updated, connDrifted, tcpDrift) ∧
    (OperationResult.Updated = .Updated ∧ tcpDrift = tcpDrift ∧
      connDrifted.st.dbs rW.resource.schema = false ∧
      connDrifted.st.users rW.resource.user = false ∧
      connDrifted.st.grants rW.resource.user rW.resource.schema = false ∧
      (∃ ext, connDrifted.trace = connW.trace ++ ext ∧
        ∀ op ∈ ext, op.isCreate = false) ∧
      ((Setup.UpdateTenantControlPlaneStatus rW 5 tcpDrift).2).status.storage.setup.checksum
        = tcpDrift.status.storage.config.checksum) := by
  refine ⟨by decide, by decide, rfl, ?_⟩
  exact claim_C1_drift_repair rW connW tcpDrift 5 .Updated connDrifted tcpDrift
    (by decide) (by decide) rfl

/-- Claim C2: Setup.ShouldStatusBeUpdated is true exactly when both the
recorded provisioned driver differs from the desired driver and the recorded
setup fingerprint differs from the desired configuration fingerprint; either
equality forces false. -/
theorem claim_C2_should_status_be_updated (r : Setup) (tcp : TenantControlPlane) :
    (Setup.ShouldStatusBeUpdated r tcp = true ↔
      (tcp.status.storage.driver ≠ r.driver ∧
       tcp.status.storage.setup.checksum ≠ tcp.status.storage.config.checksum)) ∧
    ((tcp.status.storage.driver = r.driver ∨
      tcp.status.storage.setup.checksum = tcp.status.storage.config.checksum) →
      Setup.ShouldStatusBeUpdated r tcp = false) := by
  constructor
  · simp [Setup.ShouldStatusBeUpdated]
  · intro h
    rcases h with h | h <;> simp [Setup.ShouldStatusBeUpdated, h]

/-- Witness for claim C2: a tenant whose driver matches the desired one. -/
theorem claim_C2_witness :
    (tcpClean.status.storage.driver = rW.driver ∨
      tcpClean.status.storage.setup.checksum = tcpClean.status.storage.config.checksum) ∧
    Setup.ShouldStatusBeUpdated rW tcpClean = false :=
  ⟨Or.inl rfl, (claim_C2_should_status_be_updated rW tcpClean).2 (Or.inl rfl)⟩

/-- Claim C3: in the non-drift case Setup.CreateOrUpdate runs the three
artifact steps in the fixed order schema, user, privilege grant, each doing an
existence check and creating only when absent (fault-free closed form); a
failing step's wrapped error is returned immediately, unconsumed, with the
later steps not executed (the three abort equations); every surfaced error
names the failing artifact and operation; and nothing created before the
failure is rolled back — the datastore state only grows and no deleting
operation is ever issued on this path. -/
theorem claim_C3_creation_path (r : Setup) (c : Conn) (tcp : TenantControlPlane)
    (hnd : tcp.status.storage.setup.checksum = "" ∨
           tcp.status.storage.setup.checksum = tcp.status.storage.config.checksum) :
    (c.fails = (fun _ => none) →
      Setup.CreateOrUpdate r c tcp =
        (.ok (if c.st.dbs r.resource.schema && c.st.users r.resource.user &&
                c.st.grants r.resource.user r.resource.schema then .None else .Created),
         { st := { dbs := if c.st.dbs r.resource.schema then c.st.dbs
                          else updS c.st.dbs r.resource.schema true,
                   users := if c.st.users r.resource.user then c.st.users
                            else updS c.st.users r.resource.user true,
                   grants := if c.st.grants r.resource.user r.resource.schema
                             then c.st.grants
                             else upd2 c.st.grants r.resource.user r.resource.schema true },
           fails := c.fails,
           trace := c.trace ++
             stepBlock (!c.st.dbs r.resource.schema)
               (.DBExists r.resource.schema) (.CreateDB r.resource.schema) ++
             stepBlock (!c.st.users r.resource.user)
               (.UserExists r.resource.user)
               (.CreateUser r.resource.user r.resource.password) ++
             stepBlock (!c.st.grants r.resource.user r.resource.schema)
               (.GrantPrivilegesExists r.resource.user r.resource.schema)
               (.GrantPrivileges r.resource.user r.resource.schema) },
         tcp)) ∧
    (∀ e c1, Setup.createDB r c = (.error e, c1) →
      Setup.CreateOrUpdate r c tcp = (.error e, c1, tcp)) ∧
    (∀ op1 c1 e c2, Setup.createDB r c = (.ok op1, c1) →
      Setup.createUser r c1 = (.error e, c2) →
      Setup.CreateOrUpdate r c tcp = (.error e, c2, tcp)) ∧
    (∀ op1 c1 op2 c2 e c3, Setup.createDB r c = (.ok op1, c1) →
      Setup.createUser r c1 = (.ok op2, c2) →
      Setup.createGrantPrivileges r c2 = (.error e, c3) →
      Setup.CreateOrUpdate r c tcp = (.error e, c3, tcp)) ∧
    (∀ e c' tcp', Setup.CreateOrUpdate r c tcp = (.error e, c', tcp') →
      e.msg = "unable to check if datastore exists" ∨
      e.msg = "unable to create the datastore" ∨
      e.msg = "unable to check if user exists" ∨
      e.msg = "unable to create the user" ∨
      e.msg = "unable to check if privileges exist" ∨
      e.msg = "unable to grant privileges") ∧
    (∀ res c' tcp', Setup.CreateOrUpdate r c tcp = (res, c', tcp') →
      (∀ x, c.st.dbs x = true → c'.st.dbs x = true) ∧
      (∀ x, c.st.users x = true → c'.st.users x = true) ∧
      (∀ x y, c.st.grants x y = true → c'.st.grants x y = true) ∧
      ∃ ext, c'.trace = c.trace ++ ext ∧
        ∀ op ∈ ext, op.isCreate = true ∨ op.isMutation = false) := by
  have hcond : ¬ (tcp.status.storage.setup.checksum ≠ "" ∧
      tcp.status.storage.setup.checksum ≠ tcp.status.storage.config.checksum) := by
    rcases hnd with h | h
    · exact fun hh => hh.1 h
    · exact fun hh => hh.2 h
  refine ⟨fun hc => Setup.createOrUpdate_noFault r c tcp hc hnd, ?_, ?_, ?_, ?_, ?_⟩
  · intro e c1 h1
    rw [Setup.CreateOrUpdate, if_neg hcond, h1]
  · intro op1 c1 e c2 h1 h2
    rw [Setup.CreateOrUpdate, if_neg hcond, h1]
    dsimp only
    rw [h2]
  · intro op1 c1 op2 c2 e c3 h1 h2 h3
    rw [Setup.CreateOrUpdate, if_neg hcond, h1]
    dsimp only
    rw [h2]
    dsimp only
    rw [h3]
  · intro e c' tcp' h
    rw [Setup.CreateOrUpdate, if_neg hcond] at h
    rcases h1 : Setup.createDB r c with ⟨res1, c1⟩
    rw [h1] at h
    obtain ⟨-, -, -, -, -, hm1, -⟩ := Setup.createDB_spec r c
    rw [h1] at hm1
    cases res1 with
    | error e1 =>
      dsimp only at h
      simp only [Prod.mk.injEq, Except.error.injEq] at h
      obtain ⟨he, -, -⟩ := h
      subst he
      rcases hm1 e1 rfl with hmsg | hmsg
      · exact Or.inl hmsg
      · exact Or.inr (Or.inl hmsg)
    | ok op1 =>
      dsimp only at h
      rcases h2 : Setup.createUser r c1 with ⟨res2, c2⟩
      rw [h2] at h
      obtain ⟨-, -, -, -, -, hm2, -⟩ := Setup.createUser_spec r c1
      rw [h2] at hm2
      cases res2 with
      | error e2 =>
        dsimp only at h
        simp only [Prod.mk.injEq, Except.error.injEq] at h
        obtain ⟨he, -, -⟩ := h
        subst he
        rcases hm2 e2 rfl with hmsg | hmsg
        · exact Or.inr (Or.inr (Or.inl hmsg))
        · exact Or.inr (Or.inr (Or.inr (Or.inl hmsg)))
      | ok op2 =>
        dsimp only at h
        rcases h3 : Setup.createGrantPrivileges r c2 with ⟨res3, c3⟩
        rw [h3] at h
        obtain ⟨-, -, -, -, -, hm3, -⟩ := Setup.createGrantPrivileges_spec r c2
        rw [h3] at hm3
        cases res3 with
        | error e3 =>
          dsimp only at h
          simp only [Prod.mk.injEq, Except.error.injEq] at h
          obtain ⟨he, -, -⟩ := h
          subst he
          rcases hm3 e3 rfl with hmsg | hmsg
          · exact Or.inr (Or.inr (Or.inr (Or.inr (Or.inl hmsg))))
          · exact Or.inr (Or.inr (Or.inr (Or.inr (Or.inr hmsg))))
        | ok op3 =>
          dsimp only at h
          simp at h
  · intro res c' tcp' h
    rw [Setup.CreateOrUpdate, if_neg hcond] at h
    rcases h1 : Setup.createDB r c with ⟨res1, c1⟩
    rw [h1] at h
    obtain ⟨s1us, s1g, s1f, s1db, -, -, ext1, t1, n1⟩ := Setup.createDB_spec r c
    rw [h1] at s1us s1g s1f s1db t1
    cases res1 with
    | error e1 =>
      dsimp only at h
      simp only [Prod.mk.injEq] at h
      obtain ⟨-, hc', ht'⟩ := h
      subst hc'
      refine ⟨s1db, ?_, ?_, ext1, t1, n1⟩
      · intro x hx
        rw [s1us]
        exact hx
      · intro x y hx
        rw [s1g]
        exact hx
    | ok op1 =>
      dsimp only at h
      rcases h2 : Setup.createUser r c1 with ⟨res2, c2⟩
      rw [h2] at h
      obtain ⟨s2db, s2g, s2f, s2us, -, -, ext2, t2, n2⟩ := Setup.createUser_spec r c1
      rw [h2] at s2db s2g s2f s2us t2
      have hdb2 : ∀ x, c.st.dbs x = true → c2.st.dbs x = true := by
        intro x hx
        rw [s2db]
        exact s1db x hx
      have hus2 : ∀ x, c.st.users x = true → c2.st.users x = true := by
        intro x hx
        apply s2us
        rw [s1us]
        exact hx
      have hg2 : ∀ x y, c.st.grants x y = true → c2.st.grants x y = true := by
        intro x y hx
        rw [s2g, s1g]
        exact hx
      have ht2 : c2.trace = c.trace ++ (ext1 ++ ext2) := by
        rw [t2, t1, List.append_assoc]
      have hn2 : ∀ op ∈ ext1 ++ ext2, op.isCreate = true ∨ op.isMutation = false := by
        intro op hop
        rcases List.mem_append.mp hop with hop | hop
        · exact n1 op hop
        · exact n2 op hop
      cases res2 with
      | error e2 =>
        dsimp only at h
        simp only [Prod.mk.injEq] at h
        obtain ⟨-, hc', ht'⟩ := h
        subst hc'
        exact ⟨hdb2, hus2, hg2, ext1 ++ ext2, ht2, hn2⟩
      | ok op2 =>
        dsimp only at h
        rcases h3 : Setup.createGrantPrivileges r c2 with ⟨res3, c3⟩
        rw [h3] at h
        obtain ⟨s3db, s3us, s3f, s3g, -, -, ext3, t3, n3⟩ :=
          Setup.createGrantPrivileges_spec r c2
        rw [h3] at s3db s3us s3f s3g t3
        have hdb3 : ∀ x, c.st.dbs x = true → c3.st.dbs x = true := by
          intro x hx
          rw [s3db]
          exact hdb2 x hx
        have hus3 : ∀ x, c.st.users x = true → c3.st.users x = true := by
          intro x hx
          rw [s3us]
          exact hus2 x hx
        have hg3 : ∀ x y, c.st.grants x y = true → c3.st.grants x y = true := by
          intro x y hx
          exact s3g x y (hg2 x y hx)
        have ht3 : c3.trace = c.trace ++ (ext1 ++ ext2 ++ ext3) := by
          rw [t3, ht2]
          simp [List.append_assoc]
        have hn3 : ∀ op ∈ ext1 ++ ext2 ++ ext3,
            op.isCreate = true ∨ op.isMutation = false := by
          intro op hop
          rcases List.mem_append.mp hop with hop | hop
          · exact hn2 op hop
          · exact n3 op hop
        cases res3 with
        | error e3 =>
          dsimp only at h
          simp only [Prod.mk.injEq] at h
          obtain ⟨-, hc', ht'⟩ := h
          subst hc'
          exact ⟨hdb3, hus3, hg3, ext1 ++ ext2 ++ ext3, ht3, hn3⟩
        | ok op3 =>
          dsimp only at h
          simp only [Prod.mk.injEq] at h
          obtain ⟨-, hc', ht'⟩ := h
          subst hc'
          exact ⟨hdb3, hus3, hg3, ext1 ++ ext2 ++ ext3, ht3, hn3⟩

/-- Witness for claim C3: over an empty fault-free datastore the non-drift
call returns Created having checked and created schema, user and grant in
order. -/
theorem claim_C3_witness :
    (tcpClean.status.storage.setup.checksum = "" ∨
      tcpClean.status.storage.setup.checksum = tcpClean.status.storage.config.checksum) ∧
    Setup.CreateOrUpdate rW connW tcpClean = (.ok .Created, connProvisioned, tcpClean) := by
  refine ⟨Or.inl rfl, ?_⟩
  rw [(claim_C3_creation_path rW connW tcpClean (Or.inl rfl)).1 rfl]
  rfl

/-- Claim C4: Setup.Delete under a fault-free connection revokes the privilege
grant, deletes the schema, then deletes the user, in that order, each step
mutating exactly when its own existence check reports the artifact present;
in particular when all three artifacts are already absent the call succeeds
having issued only the three existence checks and no mutating operation. -/
theorem claim_C4_teardown_order_and_idempotence (r : Setup) (c : Conn)
    (tcp : TenantControlPlane) (hc : c.fails = fun _ => none) :
    Setup.Delete r c tcp =
      (.ok (),
       { st := { dbs := if c.st.dbs r.resource.schema
                        then updS c.st.dbs r.resource.schema false else c.st.dbs,
                 users := if c.st.users r.resource.user
                          then updS c.st.users r.resource.user false else c.st.users,
                 grants := if c.st.grants r.resource.user r.resource.schema
                           then upd2 c.st.grants r.resource.user r.resource.schema false
                           else c.st.grants },
         fails := c.fails,
         trace := c.trace ++
           stepBlock (c.st.grants r.resource.user r.resource.schema)
             (.GrantPrivilegesExists r.resource.user r.resource.schema)
             (.RevokePrivileges r.resource.user r.resource.schema) ++
           stepBlock (c.st.dbs r.resource.schema)
             (.DBExists r.resource.schema) (.DeleteDB r.resource.schema) ++
           stepBlock (c.st.users r.resource.user)
             (.UserExists r.resource.user) (.DeleteUser r.resource.user) },
       tcp) ∧
    (c.st.grants r.resource.user r.resource.schema = false →
      c.st.dbs r.resource.schema = false →
      c.st.users r.resource.user = false →
      Setup.Delete r c tcp =
        (.ok (),
         { c with trace := c.trace ++
            [.GrantPrivilegesExists r.resource.user r.resource.schema,
             .DBExists r.resource.schema, .UserExists r.resource.user] },
         tcp)) := by
  refine ⟨Setup.delete_noFault r c tcp hc, ?_⟩
  intro hg hd hu
  rw [Setup.delete_noFault r c tcp hc]
  simp [hg, hd, hu, stepBlock]

/-- Witness for claim C4: deleting over the empty datastore succeeds and only
performs the three existence checks. -/
theorem claim_C4_witness :
    connW.fails = (fun _ => none) ∧
    connW.st.grants rW.resource.user rW.resource.schema = false ∧
    connW.st.dbs rW.resource.schema = false ∧
    connW.st.users rW.resource.user = false ∧
    Setup.Delete rW connW tcpClean = (.ok (), connDrifted, tcpClean) := by
  refine ⟨rfl, rfl, rfl, rfl, ?_⟩
  exact (claim_C4_teardown_order_and_idempotence rW connW tcpClean rfl).2 rfl rfl rfl

/-- Claim C5: with a fault-free datastore and an unchanged desired
fingerprint, a second Setup.CreateOrUpdate after a successful first one (and
the driver's status update in between) returns NoOp without error and adds
only the three existence checks to the trace — the state is untouched. -/
theorem claim_C5_idempotence (r : Setup) (c : Conn) (tcp : TenantControlPlane)
    (now : Nat) (hc : c.fails = fun _ => none)
    (hnd : tcp.status.storage.setup.checksum = "" ∨
           tcp.status.storage.setup.checksum = tcp.status.storage.config.checksum) :
    ∃ res1 c1,
      Setup.CreateOrUpdate r c tcp = (.ok res1, c1, tcp) ∧
      Setup.CreateOrUpdate r c1 ((Setup.UpdateTenantControlPlaneStatus r now tcp).2) =
        (.ok .None,
         { c1 with trace := c1.trace ++
            [.DBExists r.resource.schema, .UserExists r.resource.user,
             .GrantPrivilegesExists r.resource.user r.resource.schema] },
         (Setup.UpdateTenantControlPlaneStatus r now tcp).2) := by
  have h1 := Setup.createOrUpdate_noFault r c tcp hc hnd
  refine ⟨_, _, h1, ?_⟩
  have hdb : (if c.st.dbs r.resource.schema then c.st.dbs
              else updS c.st.dbs r.resource.schema true) r.resource.schema = true := by
    by_cases hd : c.st.dbs r.resource.schema = true <;> simp [hd, updS]
  have hus : (if c.st.users r.resource.user then c.st.users
              else updS c.st.users r.resource.user true) r.resource.user = true := by
    by_cases hd : c.st.users r.resource.user = true <;> simp [hd, updS]
  have hgr : (if c.st.grants r.resource.user r.resource.schema then c.st.grants
              else upd2 c.st.grants r.resource.user r.resource.schema true)
        r.resource.user r.resource.schema = true := by
    by_cases hd : c.st.grants r.resource.user r.resource.schema = true <;>
      simp [hd, upd2]
  rw [Setup.createOrUpdate_noFault r _ _ (by simp [hc])
    (Or.inr (by simp [Setup.UpdateTenantControlPlaneStatus]))]
  simp [hdb, hus, hgr, stepBlock]

/-- Witness for claim C5: first call over the empty datastore provisions and
returns Created, the repeated call returns NoOp and mutates nothing. -/
theorem claim_C5_witness :
    connW.fails = (fun _ => none) ∧
    (tcpClean.status.storage.setup.checksum = "" ∨
      tcpClean.status.storage.setup.checksum = tcpClean.status.storage.config.checksum) ∧
    (∃ res1 c1,
      Setup.CreateOrUpdate rW connW tcpClean = (.ok res1, c1, tcpClean) ∧
      Setup.CreateOrUpdate rW c1
          ((Setup.UpdateTenantControlPlaneStatus rW 7 tcpClean).2) =
        (.ok .None,
         { c1 with trace := c1.trace ++
            [.DBExists rW.resource.schema, .UserExists rW.resource.user,
             .GrantPrivilegesExists rW.resource.user rW.resource.schema] },
         (Setup.UpdateTenantControlPlaneStatus rW 7 tcpClean).2)) :=
  ⟨rfl, Or.inl rfl, claim_C5_idempotence rW connW tcpClean 7 rfl (Or.inl rfl)⟩

/-- Claim C6: the datastore Setup resource never asks for cleanup and its
CleanUp is a pure no-op returning (false, nil), touching neither the
connection nor the tenant. -/
theorem claim_C6_setup_never_cleans_up (r : Setup) (c : Conn)
    (tcp : TenantControlPlane) :
    Setup.ShouldCleanup r tcp = false ∧
    Setup.CleanUp r c tcp = ((false, none), c, tcp) :=
  ⟨rfl, rfl⟩

/-- Claim C7, counterexample: the claimed equivalence "ShouldCleanup is true
iff the desired spec is absent while status still records the add-on as
present" fails for a CoreDNS resource on a tenant whose CoreDNS spec is
absent and whose recorded CoreDNS checksum is empty: the code still returns
true. -/
theorem claim_C7_counterexample :
    ¬ (KubeadmAddonResource.ShouldCleanup rCDx tcpC7 = true ↔
        (tcpC7.spec.addons.coreDNS.isNone = true ∧
         tcpC7.status.addons.coreDNS.checksum ≠ "")) :=
  fun h => (h.mp rfl).2 rfl

/-- Claim C7, amended: for a known discriminant, ShouldCleanup returns true
iff the desired spec for that add-on is absent (nil), independent of what the
status records. -/
theorem claim_C7_amended_cleanup_gating (r : KubeadmAddonResource)
    (tcp : TenantControlPlane) :
    (r.kubeadmAddon = AddonCoreDNS →
      KubeadmAddonResource.ShouldCleanup r tcp = tcp.spec.addons.coreDNS.isNone) ∧
    (r.kubeadmAddon = AddonKubeProxy →
      KubeadmAddonResource.ShouldCleanup r tcp = tcp.spec.addons.kubeProxy.isNone) := by
  constructor <;> intro hk <;>
    simp [KubeadmAddonResource.ShouldCleanup, KubeadmAddonResource.getSpec, hk,
      AddonCoreDNS, AddonKubeProxy]

/-- Witness for the amended claim C7, at the CoreDNS discriminant. -/
theorem claim_C7_witness :
    rCDx.kubeadmAddon = AddonCoreDNS ∧
    KubeadmAddonResource.ShouldCleanup rCDx tcpC7 = tcpC7.spec.addons.coreDNS.isNone :=
  ⟨rfl, (claim_C7_amended_cleanup_gating rCDx tcpC7).1 rfl⟩

/-- Claim C8: once the tenant client is available and the remover for the
discriminant is selected, CleanUp returns (false, nil) when the remover
reports NotFound, surfaces any other remover error as (false, err), and
returns (true, nil) when the remover succeeds. -/
theorem claim_C8_cleanup_error_handling (r : KubeadmAddonResource)
    (env : AddonCleanupEnv) (tcp : TenantControlPlane) (f : RemoverFn)
    (hc : env.getTenantClientSet = .ok ())
    (hf : KubeadmAddonResource.getRemoveAddonFunction r = .ok f) :
    (∀ e, env.runRemover f = some e → IsNotFound e = true →
      KubeadmAddonResource.CleanUp r env tcp = (false, none)) ∧
    (∀ e, env.runRemover f = some e → IsNotFound e = false →
      KubeadmAddonResource.CleanUp r env tcp = (false, some e)) ∧
    (env.runRemover f = none →
      KubeadmAddonResource.CleanUp r env tcp = (true, none)) := by
  refine ⟨?_, ?_, ?_⟩
  · intro e hrun hnf
    simp [KubeadmAddonResource.CleanUp, hc, hf, hrun, hnf]
  · intro e hrun hnf
    simp [KubeadmAddonResource.CleanUp, hc, hf, hrun, hnf]
  · intro hrun
    simp [KubeadmAddonResource.CleanUp, hc, hf, hrun]

/-- Witness for claim C8: a NotFound-reporting remover yields (false, nil). -/
theorem claim_C8_witness :
    envNF.getTenantClientSet = .ok () ∧
    KubeadmAddonResource.getRemoveAddonFunction rCDx = .ok .RemoveCoreDNSAddon ∧
    envNF.runRemover .RemoveCoreDNSAddon = some (.notFound "deployments.apps not found") ∧
    IsNotFound (.notFound "deployments.apps not found") = true ∧
    KubeadmAddonResource.CleanUp rCDx envNF tcpC7 = (false, none) := by
  refine ⟨rfl, rfl, rfl, rfl, ?_⟩
  exact (claim_C8_cleanup_error_handling rCDx envNF tcpC7 .RemoveCoreDNSAddon rfl rfl).1
    (.notFound "deployments.apps not found") rfl rfl

/-- Claim C9: Setup.CreateOrUpdate and Setup.Delete return the tenant exactly
as given — in every branch, so in particular whenever they return an error
the recorded status, including Status.Storage.Setup.Checksum, is unchanged —
while Setup.UpdateTenantControlPlaneStatus is the operation that writes the
desired configuration fingerprint into the recorded setup checksum. -/
theorem claim_C9_status_written_only_by_update (r : Setup) (c : Conn)
    (tcp : TenantControlPlane) (now : Nat) :
    (Setup.CreateOrUpdate r c tcp).2.2 = tcp ∧
    (Setup.Delete r c tcp).2.2 = tcp ∧
    ((Setup.UpdateTenantControlPlaneStatus r now tcp).2).status.storage.setup.checksum
      = tcp.status.storage.config.checksum :=
  ⟨Setup.CreateOrUpdate_tcp r c tcp, Setup.Delete_tcp r c tcp,
    by simp [Setup.UpdateTenantControlPlaneStatus]⟩

/-- Claim C10, counterexample: with a discriminant that is neither CoreDNS
nor kube-proxy, getSpec does produce an unsupported-addon error, yet
ShouldCleanup swallows it and returns the default false, and
ShouldStatusBeUpdated swallows the GetStatus error and returns the default
true — neither surfaces the error. -/
theorem claim_C10_counterexample :
    KubeadmAddonResource.ShouldCleanup r2x tcpC7 = false ∧
    KubeadmAddonResource.ShouldStatusBeUpdated r2x tcpC7 = true ∧
    (∃ m, KubeadmAddonResource.getSpec r2x tcpC7 = .error (.generic m)) :=
  ⟨rfl, rfl, ⟨_, rfl⟩⟩

/-- Claim C10, amended: for an unknown discriminant no contract operation
surfaces the unsupported-addon error.  The boolean-returning ShouldCleanup
and ShouldStatusBeUpdated swallow it and return the defaults false and true;
CleanUp and UpdateTenantControlPlaneStatus panic constructing their logger —
the direct KubeadmAddon.String() call indexes the length-2 array out of
range — before ever reaching the discriminant switches whose
unsupported-addon branches (getRemoveAddonFunction, GetStatus) would return
the error. -/
theorem claim_C10_amended_unknown_discriminant (r : KubeadmAddonResource)
    (env : AddonCleanupEnv) (tcp : TenantControlPlane)
    (h0 : r.kubeadmAddon ≠ AddonCoreDNS) (h1 : r.kubeadmAddon ≠ AddonKubeProxy) :
    KubeadmAddonResource.ShouldCleanup r tcp = false ∧
    KubeadmAddonResource.ShouldStatusBeUpdated r tcp = true ∧
    KubeadmAddon.stringPanics r.kubeadmAddon = true ∧
    KubeadmAddonResource.CleanUpMethod r env tcp =
      .panicked "runtime error: index out of range" ∧
    KubeadmAddonResource.UpdateTenantControlPlaneStatusMethod r tcp =
      .panicked "runtime error: index out of range" ∧
    KubeadmAddonResource.getRemoveAddonFunction r =
      .error (.generic ("no available functionality for removing addon " ++
        KubeadmAddon.toString r.kubeadmAddon)) ∧
    KubeadmAddonResource.GetStatus r tcp =
      .error (.generic (KubeadmAddon.toString r.kubeadmAddon ++ " has no addon status")) := by
  have hp : KubeadmAddon.stringPanics r.kubeadmAddon = true := by
    simp [KubeadmAddon.stringPanics, h0, h1]
  refine ⟨?_, ?_, hp, ?_, ?_, ?_, ?_⟩
  · simp [KubeadmAddonResource.ShouldCleanup, KubeadmAddonResource.getSpec, h0, h1]
  · simp [KubeadmAddonResource.ShouldStatusBeUpdated,
      KubeadmAddonResource.isStatusEqual, KubeadmAddonResource.GetStatus, h0, h1]
  · simp [KubeadmAddonResource.CleanUpMethod, hp]
  · simp [KubeadmAddonResource.UpdateTenantControlPlaneStatusMethod, hp]
  · simp [KubeadmAddonResource.getRemoveAddonFunction, h0, h1]
  · simp [KubeadmAddonResource.GetStatus, h0, h1]

/-- Witness for the amended claim C10, at discriminant value 2. -/
theorem claim_C10_witness :
    r2x.kubeadmAddon ≠ AddonCoreDNS ∧
    r2x.kubeadmAddon ≠ AddonKubeProxy ∧
    (KubeadmAddonResource.ShouldCleanup r2x tcpC7 = false ∧
    KubeadmAddonResource.ShouldStatusBeUpdated r2x tcpC7 = true ∧
    KubeadmAddon.stringPanics r2x.kubeadmAddon = true ∧
    KubeadmAddonResource.CleanUpMethod r2x envNF tcpC7 =
      .panicked "runtime error: index out of range" ∧
    KubeadmAddonResource.UpdateTenantControlPlaneStatusMethod r2x tcpC7 =
      .panicked "runtime error: index out of range" ∧
    KubeadmAddonResource.getRemoveAddonFunction r2x =
      .error (.generic ("no available functionality for removing addon " ++
        KubeadmAddon.toString r2x.kubeadmAddon)) ∧
    KubeadmAddonResource.GetStatus r2x tcpC7 =
      .error (.generic (KubeadmAddon.toString r2x.kubeadmAddon ++ " has no addon status"))) := by
  refine ⟨by decide, by decide, ?_⟩
  exact claim_C10_amended_unknown_discriminant r2x envNF tcpC7 (by decide) (by decide)
